import Mathlib

/-!
Verification of the capture-upload-playback orchestration in
src/frontend/rn_app/VoiceApp/App.js (Sense-AI React Native client).

The JavaScript functions capturePhotoForRecording, startRecording,
stopRecording, sendRecordingToAPI and playResponseAudio are embedded as
pure Lean functions.  External, independently-timed collaborators
(camera, microphone, file system, network, JSON.parse, playback engine)
are modelled by explicit environment records whose fields give the
outcome of each awaited external call; a throwing call is modelled by the
corresponding success flag being false, and the embedded function then
follows the same catch-block control flow as the source.  The file system
is a list of existing paths.  Observable behaviour (alerts shown, files
moved or deleted, requests issued, playback started) is collected in an
effects trace.
-/

namespace SenseAI

/-- One part of the multipart form-data body built by sendRecordingToAPI. -/
inductive FormPart
  | filePart (name uri mime fname : String)
  | fieldPart (name value : String)
  deriving DecidableEq, Repr

/-- The HTTP request issued by sendRecordingToAPI via fetch. -/
structure Request where
  method : String
  url : String
  parts : List FormPart
  headers : List (String × String)
  deriving DecidableEq, Repr

/-- Observable side effects of the embedded functions. -/
inductive Effect
  | alert (title msg : String)
  | recordingUnloaded (h : Nat)
  | recordingStarted (h : Nat)
  | fileMove (src dst : String)
  | fileWrite (p : String)
  | fileDelete (p : String)
  | requestSent (r : Request)
  | playbackStarted (p : String)
  | soundUnloaded
  deriving DecidableEq, Repr

/-- The CameraPage component state relevant to the recording session:
the isRecording flag, the active recording handle (null when none) and
the photo URI captured for the current recording (null when none). -/
structure AppState where
  isRecording : Bool
  recording : Option Nat
  capturedPhotoUri : Option String
  deriving DecidableEq, Repr

/-- JavaScript truthiness of an optional string: null/undefined and the
empty string are falsy. -/
def truthy : Option String → Bool
  | none => false
  | some s => s != ""

/-- What field access on the object returned by JSON.parse yields:
result.answer and result.audio_base64, each possibly undefined. -/
structure JsResp where
  answer : Option String
  audio_base64 : Option String
  deriving DecidableEq, Repr

/-- Environment of the network round trip: the API base URL, the fetch
outcome (none models fetch throwing, e.g. a network failure; otherwise
the status code and the full response text), and the behaviour of
JSON.parse composed with field access on the resulting object (none
models JSON.parse throwing on syntactically invalid JSON). -/
structure NetEnv where
  apiURL : String
  fetchResult : Option (Nat × String)
  jsParse : String → Option JsResp

/-- response.ok in fetch: status in the range 200-299. -/
def responseOk (status : Nat) : Bool :=
  decide (200 ≤ status) && decide (status < 300)

/-- Environment of one playResponseAudio call: the cache directory, the
Date.now() timestamp used in the transient file name, and the outcomes
of writeAsStringAsync, sound.loadAsync, sound.playAsync and whether the
didJustFinish playback-status callback eventually fires. -/
structure PlayEnv where
  cacheDir : String
  ts : Nat
  writeOk : Bool
  loadOk : Bool
  playOk : Bool
  completes : Bool
  deriving DecidableEq, Repr

/-- The transient decoded-audio file name created by playResponseAudio. -/
def responseFileName (env : PlayEnv) : String :=
  env.cacheDir ++ "response_" ++ toString env.ts ++ ".wav"

/-- Result of playResponseAudio: the file system afterwards, the effects
trace, and whether the catch block surfaced a playback error alert. -/
structure PlayResult where
  fs : List String
  effects : List Effect
  errorSurfaced : Bool
  deriving DecidableEq, Repr

/-- Embedding of playResponseAudio (App.js lines 245-273): write the
base64 payload to a transient cache file, load and start playback, and
register a status callback that unloads the sound and deletes the file
when playback finishes naturally.  Any throw lands in the catch block,
which only shows an alert; it deletes nothing. -/
def playResponseAudio (env : PlayEnv) (fs : List String) (_base64Audio : String) :
    PlayResult :=
  let audioFile := responseFileName env
  if !env.writeOk then
    { fs := fs
      effects := [.alert "Error" "Failed to play audio response"]
      errorSurfaced := true }
  else
    let fs1 := audioFile :: fs
    if !env.loadOk then
      { fs := fs1
        effects := [.fileWrite audioFile, .alert "Error" "Failed to play audio response"]
        errorSurfaced := true }
    else if !env.playOk then
      { fs := fs1
        effects := [.fileWrite audioFile, .alert "Error" "Failed to play audio response"]
        errorSurfaced := true }
    else if env.completes then
      { fs := fs1.erase audioFile
        effects := [.fileWrite audioFile, .playbackStarted audioFile,
                    .soundUnloaded, .fileDelete audioFile]
        errorSurfaced := false }
    else
      { fs := fs1
        effects := [.fileWrite audioFile, .playbackStarted audioFile]
        errorSurfaced := false }

/-- Environment of one startRecording call: the cache directory, whether
stopAndUnloadAsync on a pre-existing recording succeeds, whether the
camera ref is non-null, the takePictureAsync outcome (none models a
throw or a missing photo.uri), whether copyAsync succeeds, the Date.now()
timestamp of the photo file name, whether setAudioModeAsync succeeds, and
the Audio.Recording.createAsync outcome (a fresh recording handle, or
none for a throw). -/
structure RecEnv where
  cacheDir : String
  stopOldOk : Bool
  cameraReady : Bool
  takePicture : Option String
  copyOk : Bool
  photoTs : Nat
  audioModeOk : Bool
  createRec : Option Nat

/-- The cache file name used for the captured photo. -/
def photoFileName (env : RecEnv) : String :=
  env.cacheDir ++ "recording_photo_" ++ toString env.photoTs ++ ".jpg"

/-- Embedding of capturePhotoForRecording (App.js lines 118-153): null
camera ref, a throwing takePictureAsync, a photo without a URI, and a
throwing copyAsync all return null (the internal try/catch swallows the
throw); otherwise the cache URI of the copied photo is returned.  This
function never throws. -/
def capturePhotoForRecording (env : RecEnv) : Option String :=
  if !env.cameraReady then none
  else
    match env.takePicture with
    | none => none
    | some _ => if env.copyOk then some (photoFileName env) else none

/-- Result of startRecording: the component state afterwards and the
effects trace. -/
structure StartResult where
  state : AppState
  effects : List Effect
  deriving Repr

/-- The body of startRecording after the existing-recording check
(App.js lines 166-190): capture a photo (a failure only produces a
warning alert and execution continues), set the audio mode, create the
recording and mark the session recording.  A throw from the audio calls
lands in the catch block, which only alerts. -/
def startRecordingCore (env : RecEnv) (s : AppState) (pre : List Effect) :
    StartResult :=
  let photoUri := capturePhotoForRecording env
  let s2 := { s with capturedPhotoUri := photoUri }
  let warn : List Effect :=
    match photoUri with
    | none => [.alert "Warning" "Failed to capture photo, but recording will continue"]
    | some _ => []
  if !env.audioModeOk then
    { state := s2
      effects := pre ++ warn ++ [.alert "Error" "Failed to start audio recording"] }
  else
    match env.createRec with
    | none =>
      { state := s2
        effects := pre ++ warn ++ [.alert "Error" "Failed to start audio recording"] }
    | some h2 =>
      { state := { s2 with recording := some h2, isRecording := true }
        effects := pre ++ warn ++ [.recordingStarted h2] }

/-- Embedding of startRecording (App.js lines 155-191): if a recording
already exists it is stopped and unloaded first (a throw there lands in
the catch block and aborts), then the photo is captured and the new
recording is created. -/
def startRecording (env : RecEnv) (s : AppState) : StartResult :=
  match s.recording with
  | some h =>
    if env.stopOldOk then
      startRecordingCore env { s with recording := none } [.recordingUnloaded h]
    else
      { state := s, effects := [.alert "Error" "Failed to start audio recording"] }
  | none => startRecordingCore env s []

/-- Classification of how one sendRecordingToAPI call ends. -/
inductive SendOutcome
  | noPhoto
  | noAudio
  | filesMissing
  | networkFailed
  | serverError (status : Nat) (body : String)
  | malformedResponse (body : String)
  | success (answerAlert : String) (played : Bool)
  deriving DecidableEq, Repr

/-- Result of sendRecordingToAPI: the outcome classification, the
request issued by fetch (none when the guards returned before the
request was constructed), the file system afterwards and the effects
trace. -/
structure SendResult where
  outcome : SendOutcome
  request : Option Request
  fs : List String
  effects : List Effect

/-- The multipart request built in sendRecordingToAPI (App.js lines
304-340): POST to API_URL/vision with exactly the photo part, the audio
part and the four string fields, an Accept header and no explicit
Content-Type header. -/
def buildRequest (net : NetEnv) (mode photoUri audioUri : String) : Request :=
  { method := "POST"
    url := net.apiURL ++ "/vision"
    parts := [ .filePart "file" photoUri "image/jpeg" "photo.jpg",
               .filePart "audio" audioUri "audio/m4a" "audio.m4a",
               .fieldPart "user_id" "user123",
               .fieldPart "chat_id" "chat123",
               .fieldPart "mode" mode,
               .fieldPart "question" "" ]
    headers := [("Accept", "application/json")] }

/-- The text shown by the final success alert: result.answer when it is
truthy, otherwise the fallback string (App.js lines 371-375). -/
def answerAlertText (ans : Option String) : String :=
  match ans with
  | none => "Recording sent successfully!"
  | some s => if s = "" then "Recording sent successfully!" else s

/-- Embedding of sendRecordingToAPI (App.js lines 275-397): guard on
null photo or audio URI, verify via getInfoAsync that both files exist,
build the multipart body, fetch, read the full response text, throw on
non-2xx carrying status and body, throw on a JSON.parse failure, play
the response audio when result.audio_base64 is truthy, and alert with
the answer text.  All throws land in the local catch block, which only
shows an alert. -/
def sendRecordingToAPI (net : NetEnv) (penv : PlayEnv) (mode : String)
    (photoUri audioUri : Option String) (fs : List String) : SendResult :=
  match photoUri with
  | none =>
    { outcome := .noPhoto, request := none, fs := fs
      effects := [.alert "Error" "No photo captured. Cannot send to API."] }
  | some p =>
    match audioUri with
    | none =>
      { outcome := .noAudio, request := none, fs := fs
        effects := [.alert "Error" "No audio recorded. Cannot send to API."] }
    | some a =>
      if !(fs.contains p && fs.contains a) then
        { outcome := .filesMissing, request := none, fs := fs
          effects := [.alert "Error" "Files not found on device"] }
      else
        let req := buildRequest net mode p a
        match net.fetchResult with
        | none =>
          { outcome := .networkFailed, request := some req, fs := fs
            effects := [.requestSent req, .alert "API Error" "Network error"] }
        | some (status, body) =>
          if !responseOk status then
            { outcome := .serverError status body, request := some req, fs := fs
              effects := [.requestSent req, .alert "API Error" "HTTP error"] }
          else
            match net.jsParse body with
            | none =>
              { outcome := .malformedResponse body, request := some req, fs := fs
                effects := [.requestSent req, .alert "API Error" "Invalid JSON response"] }
            | some resp =>
              if truthy resp.audio_base64 then
                let pr := playResponseAudio penv fs (resp.audio_base64.getD "")
                { outcome := .success (answerAlertText resp.answer) true
                  request := some req, fs := pr.fs
                  effects := [.requestSent req] ++ pr.effects ++
                             [.alert "Recording Processed" (answerAlertText resp.answer)] }
              else
                { outcome := .success (answerAlertText resp.answer) false
                  request := some req, fs := fs
                  effects := [.requestSent req,
                              .alert "Recording Processed" (answerAlertText resp.answer)] }

/-- Environment of one stopRecording call: the document directory, the
URI reported by recording.getURI(), the outcomes of stopAndUnloadAsync,
setAudioModeAsync and moveAsync, and the Date.now() timestamp of the
durable audio file name. -/
structure StopEnv where
  docDir : String
  recUri : String
  stopOk : Bool
  audioModeOk : Bool
  moveOk : Bool
  ts : Nat
  deriving Repr

/-- The durable audio file name built in stopRecording. -/
def audioFileName (env : StopEnv) : String :=
  env.docDir ++ "recording_" ++ toString env.ts ++ ".m4a"

/-- Classification of how one stopRecording call ends. -/
inductive StopOutcome
  | rejected
  | stopFailed
  | completed (r : SendResult)

/-- Result of stopRecording: the component state afterwards, the file
system, the effects trace and the outcome classification. -/
structure StopResult where
  state : AppState
  fs : List String
  effects : List Effect
  outcome : StopOutcome

/-- Embedding of stopRecording (App.js lines 193-243): reject with an
alert when no recording is active (touching no files), otherwise stop
and unload the recording, move the temporary audio file to a durable
location, clear the recording and photo state, and hand both URIs to
sendRecordingToAPI.  A throw anywhere in the body lands in the catch
block, which alerts and clears the recording and photo state. -/
def stopRecording (senv : StopEnv) (net : NetEnv) (penv : PlayEnv) (mode : String)
    (s : AppState) (fs : List String) : StopResult :=
  match s.recording with
  | none =>
    { state := s, fs := fs
      effects := [.alert "Error" "No active recording found"]
      outcome := .rejected }
  | some h =>
    let s1 : AppState := { s with isRecording := false }
    let cleanup : AppState := { s1 with recording := none, capturedPhotoUri := none }
    if !senv.stopOk then
      { state := cleanup, fs := fs
        effects := [.alert "Error" "Failed to stop recording"]
        outcome := .stopFailed }
    else if !senv.audioModeOk then
      { state := cleanup, fs := fs
        effects := [.recordingUnloaded h, .alert "Error" "Failed to stop recording"]
        outcome := .stopFailed }
    else if !senv.moveOk then
      { state := cleanup, fs := fs
        effects := [.recordingUnloaded h, .alert "Error" "Failed to stop recording"]
        outcome := .stopFailed }
    else
      let permanentUri := audioFileName senv
      let fs1 := permanentUri :: fs.erase senv.recUri
      let r := sendRecordingToAPI net penv mode s.capturedPhotoUri (some permanentUri) fs1
      { state := cleanup, fs := r.fs
        effects := [.recordingUnloaded h, .fileMove senv.recUri permanentUri] ++ r.effects
        outcome := .completed r }

/-- The specified shape of a successful analysis response: the answer
text is required, the synthesized-speech payload is optional. -/
structure AnalysisResponse where
  answer : String
  audioPayload : Option String
  deriving DecidableEq, Repr

/-- Modelled from the spec: the structured decoding of a response body
into AnalysisResponse, which the spec requires after the syntactic JSON
parse.  It fails whenever the required answer field is absent. -/
def specStructuredDecode (r : JsResp) : Option AnalysisResponse :=
  match r.answer with
  | none => none
  | some a => some { answer := a, audioPayload := r.audio_base64 }

/-! ## Helper lemmas -/

/-- Every exit path of stopRecording leaves the recording handle
cleared: the guard path had none, the catch paths clear it, and the
success path clears it before handing off to the upload. -/
theorem stopRecording_clears_recording (senv : StopEnv) (net : NetEnv)
    (penv : PlayEnv) (mode : String) (s : AppState) (fs : List String) :
    (stopRecording senv net penv mode s fs).state.recording = none := by
  cases hrec : s.recording with
  | none => simp [stopRecording, hrec]
  | some h =>
    simp only [stopRecording, hrec]
    split
    · rfl
    · split
      · rfl
      · split
        · rfl
        · rfl

/-- stopRecording on a state with no active recording reduces to the
rejection alert. -/
theorem stopRecording_none_eq (senv : StopEnv) (net : NetEnv)
    (penv : PlayEnv) (mode : String) (s : AppState) (fs : List String)
    (hidle : s.recording = none) :
    stopRecording senv net penv mode s fs =
      { state := s, fs := fs
        effects := [Effect.alert "Error" "No active recording found"]
        outcome := StopOutcome.rejected } := by
  simp [stopRecording, hidle]

/-- Concrete environments used by the closed witness statements. -/
def wNet : NetEnv :=
  { apiURL := "http://api", fetchResult := none, jsParse := fun _ => none }

def wPlay : PlayEnv :=
  { cacheDir := "cache/", ts := 0, writeOk := true, loadOk := true
    playOk := true, completes := true }

def wStop : StopEnv :=
  { docDir := "doc/", recUri := "tmp/rec", stopOk := true
    audioModeOk := true, moveOk := true, ts := 1 }

def idleState : AppState :=
  { isRecording := false, recording := none, capturedPhotoUri := none }

/-! ## C4 -/

/-- C4: a stop() call while no recording is active (state not Recording)
is rejected with the no-active-recording alert, changes no state,
touches no files and issues no upload; and after any stopRecording call
the recording handle is cleared, so calling stop twice in a row always
rejects the second call and never starts two upload pipelines. -/
theorem stopRecording_guard_rejects (senv : StopEnv) (net : NetEnv)
    (penv : PlayEnv) (mode : String) (s : AppState) (fs : List String)
    (hidle : s.recording = none) :
    (stopRecording senv net penv mode s fs).outcome = StopOutcome.rejected ∧
    (stopRecording senv net penv mode s fs).state = s ∧
    (stopRecording senv net penv mode s fs).fs = fs ∧
    (stopRecording senv net penv mode s fs).effects =
      [Effect.alert "Error" "No active recording found"] ∧
    (∀ senv1 net1 penv1 mode1 s1 fs1 senv2 net2 penv2 mode2,
      (stopRecording senv2 net2 penv2 mode2
          (stopRecording senv1 net1 penv1 mode1 s1 fs1).state
          (stopRecording senv1 net1 penv1 mode1 s1 fs1).fs).outcome =
        StopOutcome.rejected) := by
  refine ⟨?_, ?_, ?_, ?_, ?_⟩
  · rw [stopRecording_none_eq senv net penv mode s fs hidle]
  · rw [stopRecording_none_eq senv net penv mode s fs hidle]
  · rw [stopRecording_none_eq senv net penv mode s fs hidle]
  · rw [stopRecording_none_eq senv net penv mode s fs hidle]
  · intro senv1 net1 penv1 mode1 s1 fs1 senv2 net2 penv2 mode2
    rw [stopRecording_none_eq senv2 net2 penv2 mode2 _ _
      (stopRecording_clears_recording senv1 net1 penv1 mode1 s1 fs1)]

/-- Witness for C4 at a concrete idle state. -/
theorem stopRecording_guard_rejects_witness :
    idleState.recording = none ∧
    (stopRecording wStop wNet wPlay "normal" idleState []).outcome =
      StopOutcome.rejected :=
  ⟨rfl, (stopRecording_guard_rejects wStop wNet wPlay "normal" idleState [] rfl).1⟩

/-! ## Upload request lemmas -/

/-- Once both guards pass, every branch of sendRecordingToAPI carries
the request built by buildRequest. -/
theorem sendRecordingToAPI_request_eq (net : NetEnv) (penv : PlayEnv)
    (mode p a : String) (fs : List String)
    (hp : fs.contains p = true) (ha : fs.contains a = true) :
    (sendRecordingToAPI net penv mode (some p) (some a) fs).request =
      some (buildRequest net mode p a) := by
  simp only [sendRecordingToAPI, hp, ha, Bool.and_self, Bool.not_true,
    Bool.false_eq_true, if_false]
  cases net.fetchResult with
  | none => rfl
  | some sb =>
    obtain ⟨status, body⟩ := sb
    cases hok : responseOk status with
    | false => simp [hok]
    | true =>
      simp only [hok, Bool.not_true, Bool.false_eq_true, if_false]
      cases hparse : net.jsParse body with
      | none => rfl
      | some resp =>
        cases htr : truthy resp.audio_base64 <;> simp [htr]

/-- When either referenced file is gone, sendRecordingToAPI reduces to
the files-missing alert. -/
theorem sendRecordingToAPI_missing_eq (net : NetEnv) (penv : PlayEnv)
    (mode p a : String) (fs : List String)
    (hcond : (fs.contains p && fs.contains a) = false) :
    sendRecordingToAPI net penv mode (some p) (some a) fs =
      { outcome := SendOutcome.filesMissing, request := none, fs := fs
        effects := [Effect.alert "Error" "Files not found on device"] } := by
  simp only [sendRecordingToAPI, hcond, Bool.not_false, if_true]

/-- An issued request always comes from buildRequest applied to the two
present file URIs. -/
theorem sendRecordingToAPI_request_inv (net : NetEnv) (penv : PlayEnv)
    (mode : String) (photoUri audioUri : Option String) (fs : List String)
    (r : Request)
    (hr : (sendRecordingToAPI net penv mode photoUri audioUri fs).request = some r) :
    ∃ p a, photoUri = some p ∧ audioUri = some a ∧ r = buildRequest net mode p a := by
  cases photoUri with
  | none => simp [sendRecordingToAPI] at hr
  | some p =>
    cases audioUri with
    | none => simp [sendRecordingToAPI] at hr
    | some a =>
      refine ⟨p, a, rfl, rfl, ?_⟩
      cases hcond : (fs.contains p && fs.contains a) with
      | false =>
        rw [sendRecordingToAPI_missing_eq net penv mode p a fs hcond] at hr
        exact absurd hr (by simp)
      | true =>
        have hp : fs.contains p = true := by
          cases hcp : fs.contains p with
          | true => rfl
          | false => rw [hcp, Bool.false_and] at hcond; exact absurd hcond (by simp)
        have ha : fs.contains a = true := by
          cases hca : fs.contains a with
          | true => rfl
          | false => rw [hca, Bool.and_false] at hcond; exact absurd hcond (by simp)
        rw [sendRecordingToAPI_request_eq net penv mode p a fs hp ha] at hr
        exact (Option.some.inj hr).symm

/-! ## C7 -/

/-- C7: whenever a Turn is sent, the issued request is a POST to
API_URL/vision whose multipart body holds exactly the image part
(image/jpeg), the audio part (audio/m4a) and the four string fields
user_id, chat_id, mode and question, with an Accept application/json
header and no explicit Content-Type header. -/
theorem sendRecordingToAPI_request_shape (net : NetEnv) (penv : PlayEnv)
    (mode p a : String) (fs : List String)
    (hp : fs.contains p = true) (ha : fs.contains a = true) :
    (sendRecordingToAPI net penv mode (some p) (some a) fs).request =
      some { method := "POST"
             url := net.apiURL ++ "/vision"
             parts := [ FormPart.filePart "file" p "image/jpeg" "photo.jpg",
                        FormPart.filePart "audio" a "audio/m4a" "audio.m4a",
                        FormPart.fieldPart "user_id" "user123",
                        FormPart.fieldPart "chat_id" "chat123",
                        FormPart.fieldPart "mode" mode,
                        FormPart.fieldPart "question" "" ]
             headers := [("Accept", "application/json")] } ∧
    (∀ r v, (sendRecordingToAPI net penv mode (some p) (some a) fs).request = some r →
      ("Content-Type", v) ∉ r.headers) := by
  have h := sendRecordingToAPI_request_eq net penv mode p a fs hp ha
  refine ⟨h, ?_⟩
  intro r v hr
  rw [h] at hr
  cases Option.some.inj hr
  simp [buildRequest]

/-- Witness for C7 at a concrete upload. -/
theorem sendRecordingToAPI_request_shape_witness :
    (["p.jpg", "a.m4a"] : List String).contains "p.jpg" = true ∧
    (sendRecordingToAPI wNet wPlay "normal" (some "p.jpg") (some "a.m4a")
        ["p.jpg", "a.m4a"]).request =
      some { method := "POST"
             url := wNet.apiURL ++ "/vision"
             parts := [ FormPart.filePart "file" "p.jpg" "image/jpeg" "photo.jpg",
                        FormPart.filePart "audio" "a.m4a" "audio/m4a" "audio.m4a",
                        FormPart.fieldPart "user_id" "user123",
                        FormPart.fieldPart "chat_id" "chat123",
                        FormPart.fieldPart "mode" "normal",
                        FormPart.fieldPart "question" "" ]
             headers := [("Accept", "application/json")] } :=
  ⟨rfl, (sendRecordingToAPI_request_shape wNet wPlay "normal" "p.jpg" "a.m4a"
      ["p.jpg", "a.m4a"] rfl rfl).1⟩

/-! ## C8 -/

/-- C8: when the photo reference or the audio reference is absent, or
either referenced file no longer exists on local storage, no request is
issued and an error alert is surfaced instead. -/
theorem sendRecordingToAPI_file_guard (net : NetEnv) (penv : PlayEnv)
    (mode : String) (photoUri audioUri : Option String) (fs : List String)
    (hmissing : photoUri = none ∨ audioUri = none ∨
      ∀ p a, photoUri = some p → audioUri = some a →
        ¬(fs.contains p = true ∧ fs.contains a = true)) :
    (sendRecordingToAPI net penv mode photoUri audioUri fs).request = none ∧
    ∃ msg, (sendRecordingToAPI net penv mode photoUri audioUri fs).effects =
      [Effect.alert "Error" msg] := by
  cases photoUri with
  | none =>
    exact ⟨rfl, "No photo captured. Cannot send to API.", rfl⟩
  | some p =>
    cases audioUri with
    | none =>
      exact ⟨rfl, "No audio recorded. Cannot send to API.", rfl⟩
    | some a =>
      rcases hmissing with hph | hau | hex
      · exact absurd hph (by simp)
      · exact absurd hau (by simp)
      · have hcond : (fs.contains p && fs.contains a) = false := by
          cases hcp : fs.contains p with
          | false => rfl
          | true =>
            cases hca : fs.contains a with
            | false => rfl
            | true => exact absurd ⟨hcp, hca⟩ (hex p a rfl rfl)
        rw [sendRecordingToAPI_missing_eq net penv mode p a fs hcond]
        exact ⟨rfl, "Files not found on device", rfl⟩

/-- Witness for C8: the audio file is gone from storage, so no request
is issued. -/
theorem sendRecordingToAPI_file_guard_witness :
    (sendRecordingToAPI wNet wPlay "normal" (some "p.jpg") (some "a.m4a")
        ["p.jpg"]).request = none :=
  (sendRecordingToAPI_file_guard wNet wPlay "normal" (some "p.jpg") (some "a.m4a")
      ["p.jpg"]
      (Or.inr (Or.inr (by intro p a hp ha hc
                          cases Option.some.inj hp
                          cases Option.some.inj ha
                          exact absurd hc.2 (by decide))))).1

/-! ## C10 -/

/-- C10: every request the client issues carries the question field as
the empty string: the client never supplies a text override. -/
theorem sendRecordingToAPI_question_empty (net : NetEnv) (penv : PlayEnv)
    (mode : String) (photoUri audioUri : Option String) (fs : List String)
    (r : Request)
    (hr : (sendRecordingToAPI net penv mode photoUri audioUri fs).request = some r) :
    FormPart.fieldPart "question" "" ∈ r.parts ∧
    ∀ v, FormPart.fieldPart "question" v ∈ r.parts → v = "" := by
  obtain ⟨p, a, -, -, hreq⟩ :=
    sendRecordingToAPI_request_inv net penv mode photoUri audioUri fs r hr
  subst hreq
  constructor
  · simp [buildRequest]
  · intro v hv
    simp [buildRequest] at hv
    exact hv

/-- Witness for C10 at a concrete upload. -/
theorem sendRecordingToAPI_question_empty_witness :
    FormPart.fieldPart "question" "" ∈
      (buildRequest wNet "normal" "p.jpg" "a.m4a").parts :=
  (sendRecordingToAPI_question_empty wNet wPlay "normal" (some "p.jpg")
      (some "a.m4a") ["p.jpg", "a.m4a"] (buildRequest wNet "normal" "p.jpg" "a.m4a")
      (by decide)).1

/-! ## Response handling: C5 and C6 -/

/-- JavaScript truthiness of an optional string, unfolded. -/
theorem truthy_iff (o : Option String) :
    truthy o = true ↔ ∃ s, o = some s ∧ s ≠ "" := by
  cases o with
  | none => simp [truthy]
  | some s => simp [truthy]

/-- On a 2xx response whose body JSON.parse accepts, sendRecordingToAPI
ends in the success outcome with the answer alert text and the
truthiness of audio_base64 deciding playback. -/
theorem sendRecordingToAPI_parsed_eq (net : NetEnv) (penv : PlayEnv)
    (mode p a : String) (fs : List String) (status : Nat) (body : String)
    (resp : JsResp)
    (hp : fs.contains p = true) (ha : fs.contains a = true)
    (hf : net.fetchResult = some (status, body))
    (hok : responseOk status = true)
    (hparse : net.jsParse body = some resp) :
    (sendRecordingToAPI net penv mode (some p) (some a) fs).outcome =
      SendOutcome.success (answerAlertText resp.answer) (truthy resp.audio_base64) ∧
    Effect.alert "Recording Processed" (answerAlertText resp.answer) ∈
      (sendRecordingToAPI net penv mode (some p) (some a) fs).effects := by
  simp only [sendRecordingToAPI, hp, ha, Bool.and_self, Bool.not_true,
    Bool.false_eq_true, if_false, hf, hok, hparse]
  cases htr : truthy resp.audio_base64 <;> simp [htr]

/-- C5 amended: on every successful upload (2xx status and a body that
JSON.parse accepts) the outcome is success: the user is shown the parsed
answer when it is present and non-empty, and the fallback success text
when it is absent or empty; ResponsePlayer is invoked exactly when the
audio_base64 field is present AND non-empty (an empty audio_base64 is
present but plays nothing). -/
theorem sendRecordingToAPI_success_surfaces (net : NetEnv) (penv : PlayEnv)
    (mode p a : String) (fs : List String) (status : Nat) (body : String)
    (resp : JsResp)
    (hp : fs.contains p = true) (ha : fs.contains a = true)
    (hf : net.fetchResult = some (status, body))
    (hok : responseOk status = true)
    (hparse : net.jsParse body = some resp) :
    ∃ msg played,
      (sendRecordingToAPI net penv mode (some p) (some a) fs).outcome =
        SendOutcome.success msg played ∧
      Effect.alert "Recording Processed" msg ∈
        (sendRecordingToAPI net penv mode (some p) (some a) fs).effects ∧
      (played = true ↔ ∃ s, resp.audio_base64 = some s ∧ s ≠ "") ∧
      (∀ s, resp.answer = some s → s ≠ "" → msg = s) ∧
      ((resp.answer = none ∨ resp.answer = some "") →
        msg = "Recording sent successfully!") := by
  obtain ⟨hout, hmem⟩ :=
    sendRecordingToAPI_parsed_eq net penv mode p a fs status body resp hp ha hf hok hparse
  refine ⟨answerAlertText resp.answer, truthy resp.audio_base64, hout, hmem,
    truthy_iff resp.audio_base64, ?_, ?_⟩
  · intro s hs hne
    rw [hs]
    simp [answerAlertText, hne]
  · rintro (hnone | hempty)
    · rw [hnone]
      rfl
    · rw [hempty]
      rfl

/-- Concrete environment of the C5 witness: a 2xx response whose body
parses to an answer with no audio field. -/
def c5WNet : NetEnv :=
  { apiURL := "http://api", fetchResult := some (200, "ANS")
    jsParse := fun s =>
      if s = "ANS" then some { answer := some "A red mug on a table."
                               audio_base64 := none }
      else none }

/-- Witness for C5: a text-only success surfaces the answer and plays
nothing. -/
theorem sendRecordingToAPI_success_surfaces_witness :
    ∃ msg played,
      (sendRecordingToAPI c5WNet wPlay "normal" (some "p.jpg") (some "a.m4a")
          ["p.jpg", "a.m4a"]).outcome = SendOutcome.success msg played ∧
      Effect.alert "Recording Processed" msg ∈
        (sendRecordingToAPI c5WNet wPlay "normal" (some "p.jpg") (some "a.m4a")
            ["p.jpg", "a.m4a"]).effects ∧
      (played = true ↔
        ∃ s, ({ answer := some "A red mug on a table.", audio_base64 := none } :
          JsResp).audio_base64 = some s ∧ s ≠ "") ∧
      (∀ s, ({ answer := some "A red mug on a table.", audio_base64 := none } :
          JsResp).answer = some s → s ≠ "" → msg = s) ∧
      ((({ answer := some "A red mug on a table.", audio_base64 := none } :
          JsResp).answer = none ∨
        ({ answer := some "A red mug on a table.", audio_base64 := none } :
          JsResp).answer = some "") → msg = "Recording sent successfully!") :=
  sendRecordingToAPI_success_surfaces c5WNet wPlay "normal" "p.jpg" "a.m4a"
    ["p.jpg", "a.m4a"] 200 "ANS"
    { answer := some "A red mug on a table.", audio_base64 := none }
    rfl rfl rfl rfl rfl

/-- Concrete environment of the C5 counterexample: a 2xx response whose
body carries a present but empty audio_base64 field. -/
def c5Net : NetEnv :=
  { apiURL := "http://api", fetchResult := some (200, "EMPTYAUDIO")
    jsParse := fun s =>
      if s = "EMPTYAUDIO" then some { answer := some "Done", audio_base64 := some "" }
      else none }

/-- C5 counterexample: the audio_base64 field is present in the parsed
response (as the empty string), yet ResponsePlayer is not invoked — the
code tests truthiness, not presence. -/
theorem sendRecordingToAPI_present_audio_not_played :
    c5Net.jsParse "EMPTYAUDIO" =
      some { answer := some "Done", audio_base64 := some "" } ∧
    ({ answer := some "Done", audio_base64 := some "" } : JsResp).audio_base64 ≠
      none ∧
    (sendRecordingToAPI c5Net wPlay "normal" (some "p.jpg") (some "a.m4a")
        ["p.jpg", "a.m4a"]).outcome = SendOutcome.success "Done" false ∧
    (∀ pfile, Effect.playbackStarted pfile ∉
      (sendRecordingToAPI c5Net wPlay "normal" (some "p.jpg") (some "a.m4a")
          ["p.jpg", "a.m4a"]).effects) := by
  refine ⟨rfl, by decide, by decide, ?_⟩
  intro pfile
  have heff : (sendRecordingToAPI c5Net wPlay "normal" (some "p.jpg")
      (some "a.m4a") ["p.jpg", "a.m4a"]).effects =
      [Effect.requestSent (buildRequest c5Net "normal" "p.jpg" "a.m4a"),
       Effect.alert "Recording Processed" "Done"] := by decide
  rw [heff]
  simp

/-- C6 amended: the full response body is read as text first and carried
into the error classification: a non-2xx status ends in serverError with
the status and the raw body, and a body that JSON.parse rejects
(syntactically invalid JSON) ends in malformedResponse; structured shape
checking beyond JSON.parse is not performed. -/
theorem sendRecordingToAPI_error_classification (net : NetEnv) (penv : PlayEnv)
    (mode p a : String) (fs : List String) (status : Nat) (body : String)
    (hp : fs.contains p = true) (ha : fs.contains a = true)
    (hf : net.fetchResult = some (status, body)) :
    (responseOk status = false →
      (sendRecordingToAPI net penv mode (some p) (some a) fs).outcome =
        SendOutcome.serverError status body) ∧
    (responseOk status = true → net.jsParse body = none →
      (sendRecordingToAPI net penv mode (some p) (some a) fs).outcome =
        SendOutcome.malformedResponse body) := by
  constructor
  · intro hok
    simp only [sendRecordingToAPI, hp, ha, Bool.and_self, Bool.not_true,
      Bool.false_eq_true, if_false, hf, hok, Bool.not_false, if_true]
  · intro hok hparse
    simp only [sendRecordingToAPI, hp, ha, Bool.and_self, Bool.not_true,
      Bool.false_eq_true, if_false, hf, hok, hparse]

/-- Witness for C6: HTTP 500 with body "internal error" ends in
serverError 500 "internal error". -/
theorem sendRecordingToAPI_error_classification_witness :
    (sendRecordingToAPI
        { apiURL := "http://api", fetchResult := some (500, "internal error")
          jsParse := fun _ => none }
        wPlay "normal" (some "p.jpg") (some "a.m4a") ["p.jpg", "a.m4a"]).outcome =
      SendOutcome.serverError 500 "internal error" :=
  (sendRecordingToAPI_error_classification
      { apiURL := "http://api", fetchResult := some (500, "internal error")
        jsParse := fun _ => none }
      wPlay "normal" "p.jpg" "a.m4a" ["p.jpg", "a.m4a"] 500 "internal error"
      rfl rfl rfl).1 rfl

/-- Concrete environment of the C6 counterexample: a 2xx response whose
body is syntactically valid JSON (an empty array) carrying none of the
expected fields. -/
def c6Net : NetEnv :=
  { apiURL := "http://api", fetchResult := some (200, "[]")
    jsParse := fun s =>
      if s = "[]" then some { answer := none, audio_base64 := none } else none }

/-- C6 counterexample: a body that fails the structured decoding into
AnalysisResponse (required answer field absent) is not surfaced as
MalformedResponse: the code only runs the syntactic JSON.parse and then
falls back to the default success text — a silent default. -/
theorem sendRecordingToAPI_wrong_shape_silent_default :
    specStructuredDecode { answer := none, audio_base64 := none } = none ∧
    c6Net.jsParse "[]" = some { answer := none, audio_base64 := none } ∧
    (sendRecordingToAPI c6Net wPlay "normal" (some "p.jpg") (some "a.m4a")
        ["p.jpg", "a.m4a"]).outcome =
      SendOutcome.success "Recording sent successfully!" false ∧
    (sendRecordingToAPI c6Net wPlay "normal" (some "p.jpg") (some "a.m4a")
        ["p.jpg", "a.m4a"]).outcome ≠ SendOutcome.malformedResponse "[]" := by
  exact ⟨rfl, rfl, by decide, by decide⟩

/-! ## Capture orchestration: C1, C2, C9 -/

/-- Concrete environment of the C1 counterexample: the camera is not
ready, so photo capture fails, while the audio subsystem succeeds. -/
def c1Env : RecEnv :=
  { cacheDir := "cache/", stopOldOk := true, cameraReady := false
    takePicture := none, copyOk := true, photoTs := 5
    audioModeOk := true, createRec := some 1 }

/-- C1 counterexample: photo capture fails, yet the attempt is not
aborted — audio recording is started anyway. -/
theorem startRecording_records_despite_photo_failure :
    capturePhotoForRecording c1Env = none ∧
    (startRecording c1Env idleState).state.recording = some 1 ∧
    (startRecording c1Env idleState).state.isRecording = true ∧
    Effect.recordingStarted 1 ∈ (startRecording c1Env idleState).effects := by
  decide

/-- C1 amended: when photo capture fails during start(), the code does
not abort: it stores no photo URI, shows the continue warning, and
starts the recording whenever the audio subsystem succeeds; however no
upload request is ever issued for a turn without a photo, because
sendRecordingToAPI rejects a null photo URI before building a request. -/
theorem startRecording_photo_failure_continues (env : RecEnv) (s : AppState)
    (h : Nat)
    (hidle : s.recording = none)
    (hphoto : capturePhotoForRecording env = none)
    (hmode : env.audioModeOk = true)
    (hcreate : env.createRec = some h) :
    (startRecording env s).state.recording = some h ∧
    (startRecording env s).state.isRecording = true ∧
    (startRecording env s).state.capturedPhotoUri = none ∧
    Effect.alert "Warning" "Failed to capture photo, but recording will continue"
      ∈ (startRecording env s).effects ∧
    (∀ net penv mode audioUri fs,
      (sendRecordingToAPI net penv mode none audioUri fs).request = none ∧
      (sendRecordingToAPI net penv mode none audioUri fs).outcome =
        SendOutcome.noPhoto) := by
  refine ⟨?_, ?_, ?_, ?_, ?_⟩ <;>
    simp [startRecording, hidle, startRecordingCore, hphoto, hmode, hcreate,
      sendRecordingToAPI]

/-- Witness for C1 at a concrete failed photo capture. -/
theorem startRecording_photo_failure_continues_witness :
    capturePhotoForRecording c1Env = none ∧
    (startRecording c1Env idleState).state.recording = some 1 :=
  ⟨rfl, (startRecording_photo_failure_continues c1Env idleState 1
      rfl rfl rfl rfl).1⟩

/-- Concrete environment of the C2 counterexample: everything succeeds. -/
def c2Env : RecEnv :=
  { cacheDir := "cache/", stopOldOk := true, cameraReady := true
    takePicture := some "tmp/photo", copyOk := true, photoTs := 6
    audioModeOk := true, createRec := some 7 }

/-- A state with a recording already in progress. -/
def busyState : AppState :=
  { isRecording := true, recording := some 5, capturedPhotoUri := none }

/-- C2 counterexample: start() while a recording is already in progress
is not rejected: the active recording is stopped and unloaded and a new
capture attempt proceeds all the way to a fresh recording. -/
theorem startRecording_busy_not_rejected :
    busyState.recording = some 5 ∧
    (startRecording c2Env busyState).state.recording = some 7 ∧
    Effect.recordingUnloaded 5 ∈ (startRecording c2Env busyState).effects ∧
    Effect.recordingStarted 7 ∈ (startRecording c2Env busyState).effects ∧
    (startRecording c2Env busyState).state.capturedPhotoUri =
      some "cache/recording_photo_6.jpg" := by
  decide

/-- C2 amended: start() has no AlreadyInProgress guard: when a recording
handle exists and stopping it succeeds, the old recording is unloaded
and a fresh capture attempt proceeds — the photo-capture result is
stored, and a new recording is created whenever the audio subsystem
succeeds. -/
theorem startRecording_busy_proceeds (env : RecEnv) (s : AppState) (h : Nat)
    (hrec : s.recording = some h) (hstop : env.stopOldOk = true) :
    Effect.recordingUnloaded h ∈ (startRecording env s).effects ∧
    (startRecording env s).state.capturedPhotoUri =
      capturePhotoForRecording env ∧
    (∀ h2, env.audioModeOk = true → env.createRec = some h2 →
      (startRecording env s).state.recording = some h2) := by
  refine ⟨?_, ?_, ?_⟩
  · simp only [startRecording, hrec, hstop, if_true, startRecordingCore]
    cases hm : env.audioModeOk with
    | false => simp
    | true =>
      cases hc : env.createRec with
      | none => simp
      | some h2 => simp
  · simp only [startRecording, hrec, hstop, if_true, startRecordingCore]
    cases hm : env.audioModeOk with
    | false => simp
    | true =>
      cases hc : env.createRec with
      | none => simp
      | some h2 => simp
  · intro h2 hm hc
    simp [startRecording, hrec, hstop, startRecordingCore, hm, hc]

/-- Witness for C2 at a concrete busy state. -/
theorem startRecording_busy_proceeds_witness :
    busyState.recording = some 5 ∧
    Effect.recordingUnloaded 5 ∈ (startRecording c2Env busyState).effects :=
  ⟨rfl, (startRecording_busy_proceeds c2Env busyState 5 rfl rfl).1⟩

/-- Concrete environment of the C9 counterexample: takePictureAsync
throws, the audio subsystem succeeds. -/
def c9Env : RecEnv :=
  { cacheDir := "cache/", stopOldOk := true, cameraReady := true
    takePicture := none, copyOk := true, photoTs := 8
    audioModeOk := true, createRec := some 3 }

/-- C9 counterexample: after a failed photo capture the session does not
return to Idle — it holds a live recording handle and is recording. -/
theorem startRecording_photo_failure_not_idle :
    capturePhotoForRecording c9Env = none ∧
    (startRecording c9Env idleState).state.recording ≠ none ∧
    (startRecording c9Env idleState).state.isRecording = true := by
  decide

/-- C9 amended: a failure of the audio subsystem during start() from
Idle leaves the session Idle (no recording handle, not recording); every
stopRecording exit path clears the recording handle; and any state with
no recording handle accepts a subsequent start(), which records again
under a good environment.  A photo-capture failure alone, however, does
not return the session to Idle: the attempt proceeds to Recording. -/
theorem session_reentrant_after_failures (env : RecEnv) (s : AppState)
    (hidle : s.recording = none) (hnotrec : s.isRecording = false)
    (hfail : env.audioModeOk = false ∨ env.createRec = none) :
    ((startRecording env s).state.recording = none ∧
     (startRecording env s).state.isRecording = false) ∧
    (∀ senv net penv mode s2 fs,
      (stopRecording senv net penv mode s2 fs).state.recording = none) ∧
    (∀ env2 s2 h2, s2.recording = none → env2.audioModeOk = true →
      env2.createRec = some h2 →
      (startRecording env2 s2).state.recording = some h2 ∧
      (startRecording env2 s2).state.isRecording = true) := by
  refine ⟨?_, ?_, ?_⟩
  · rcases hfail with hm | hc
    · constructor <;>
        simp [startRecording, hidle, startRecordingCore, hm, hnotrec]
    · cases hm : env.audioModeOk with
      | false =>
        constructor <;>
          simp [startRecording, hidle, startRecordingCore, hm, hnotrec]
      | true =>
        constructor <;>
          simp [startRecording, hidle, startRecordingCore, hm, hc, hnotrec]
  · intro senv net penv mode s2 fs
    exact stopRecording_clears_recording senv net penv mode s2 fs
  · intro env2 s2 h2 hidle2 hm2 hc2
    constructor <;>
      simp [startRecording, hidle2, startRecordingCore, hm2, hc2]

/-- Concrete environment of the C9 witness: createAsync throws. -/
def c9WEnv : RecEnv :=
  { cacheDir := "cache/", stopOldOk := true, cameraReady := true
    takePicture := some "tmp/photo", copyOk := true, photoTs := 8
    audioModeOk := true, createRec := none }

/-- Witness for C9 at a concrete failed recording start. -/
theorem session_reentrant_after_failures_witness :
    (startRecording c9WEnv idleState).state.recording = none ∧
    (startRecording c9WEnv idleState).state.isRecording = false :=
  (session_reentrant_after_failures c9WEnv idleState rfl rfl (Or.inr rfl)).1

/-! ## Playback cleanup: C3 -/

/-- Concrete environment of the C3 counterexample: the transient file is
written but sound.loadAsync throws. -/
def c3Play : PlayEnv :=
  { cacheDir := "cache/", ts := 9, writeOk := true, loadOk := false
    playOk := true, completes := true }

/-- C3 counterexample: when playback fails to start, the transient
decoded-audio file is NOT deleted before the error is surfaced — it
still exists afterwards. -/
theorem playResponseAudio_leak_on_load_failure :
    (playResponseAudio c3Play [] "QUJD").errorSurfaced = true ∧
    responseFileName c3Play ∈ (playResponseAudio c3Play [] "QUJD").fs ∧
    Effect.fileDelete (responseFileName c3Play) ∉
      (playResponseAudio c3Play [] "QUJD").effects := by
  decide

/-- C3 amended: on natural completion the transient decoded-audio file
is deleted exactly once (the effects trace holds a single delete and the
file system returns to its prior contents); but when loading or starting
playback fails, the transient file is NOT deleted — it remains on the
file system while the playback error is surfaced. -/
theorem playResponseAudio_cleanup (env : PlayEnv) (fs : List String)
    (b64 : String) (hw : env.writeOk = true) :
    (env.loadOk = true → env.playOk = true → env.completes = true →
      (playResponseAudio env fs b64).fs = fs ∧
      (playResponseAudio env fs b64).effects =
        [Effect.fileWrite (responseFileName env),
         Effect.playbackStarted (responseFileName env),
         Effect.soundUnloaded,
         Effect.fileDelete (responseFileName env)]) ∧
    ((env.loadOk = false ∨ env.playOk = false) →
      responseFileName env ∈ (playResponseAudio env fs b64).fs ∧
      (playResponseAudio env fs b64).errorSurfaced = true ∧
      Effect.fileDelete (responseFileName env) ∉
        (playResponseAudio env fs b64).effects) := by
  constructor
  · intro hl hp hc
    constructor <;> simp [playResponseAudio, hw, hl, hp, hc]
  · rintro (hl | hp)
    · refine ⟨?_, ?_, ?_⟩ <;> simp [playResponseAudio, hw, hl]
    · cases hl : env.loadOk with
      | false => refine ⟨?_, ?_, ?_⟩ <;> simp [playResponseAudio, hw, hl]
      | true => refine ⟨?_, ?_, ?_⟩ <;> simp [playResponseAudio, hw, hl, hp]

/-- Witness for C3 at a concrete completed playback. -/
theorem playResponseAudio_cleanup_witness :
    (playResponseAudio wPlay ["keep.txt"] "QUJD").fs = ["keep.txt"] ∧
    (playResponseAudio wPlay ["keep.txt"] "QUJD").effects =
      [Effect.fileWrite (responseFileName wPlay),
       Effect.playbackStarted (responseFileName wPlay),
       Effect.soundUnloaded,
       Effect.fileDelete (responseFileName wPlay)] :=
  (playResponseAudio_cleanup wPlay ["keep.txt"] "QUJD" rfl).1 rfl rfl rfl

end SenseAI
